import Mathlib

/-!
Verification of the ReviewerBackend dedup consumer (src/run.py).

The embedding models the persisted Elasticsearch index as a list of
(identifier, document) pairs with a fresh-id counter, the two writer
functions `process_single_secrule` / `process_double_secrule` as pure
state transformers that also emit the list of store operations they
perform, and the message `callback` as a function from an inbound
message and a store to either a Python-level error (an uncaught
exception) or a result holding the new store and the ordered trace of
observable actions (store writes, queue publishes, the final ack).
-/

namespace ReviewerBackend

/-- Role tag stored in the document field named `for` in the source:
`null`, `"ip"` or `"chain"`; we model it as `Option ScopeRole`. -/
inductive ScopeRole where
  | ip
  | chain
deriving DecidableEq, Repr

/-- One document of the `responser-modsecurity-executions` index, with the
fields written by `process_single_secrule` / `process_double_secrule`.
The source's `for` field is `scope_for` here (`for` is reserved). -/
structure ExecutionDoc where
  responser_name : Option String
  secrule_id : Option String
  type : Option String
  scope_for : Option ScopeRole
  start : Option String
  detail_ip : Option String
  anomaly_score : Option Nat
  paranoia_level : Option Nat
  detail_rule : Option String
  detail_payload : Option String
  detail_hashed_rule : Option String
  detail_hashed_payload : Option String
  payload : String
  relationship : Option String
  real_id_relationship : Option Nat
  status : String
deriving DecidableEq, Repr

/-- The search index: stored documents keyed by identifier, plus the
counter from which Elasticsearch-assigned identifiers are drawn. -/
structure Store where
  nextId : Nat
  docs : List (Nat × ExecutionDoc)
deriving DecidableEq, Repr

/-- Every stored identifier was assigned from the counter. -/
def Store.WF (s : Store) : Prop := ∀ p ∈ s.docs, p.1 < s.nextId

/-- Read a document back by identifier. -/
def Store.find (s : Store) (id : Nat) : Option ExecutionDoc :=
  (s.docs.find? (fun p => p.1 == id)).map (fun p => p.2)

/-- `elasticsearch.index`: append a new document under a fresh identifier
and return it, read-after-write visible. -/
def esIndex (s : Store) (doc : ExecutionDoc) : Store × Nat :=
  ({ nextId := s.nextId + 1, docs := s.docs ++ [(s.nextId, doc)] }, s.nextId)

/-- `elasticsearch.update` with `doc={real_id_relationship: rid}`:
rewrite that one field of the document stored under `id`. -/
def esUpdate (s : Store) (id : Nat) (rid : Nat) : Store :=
  { s with docs := s.docs.map (fun p =>
      if p.1 = id then (p.1, { p.2 with real_id_relationship := some rid }) else p) }

/-- One store round-trip performed by a writer. -/
inductive StoreOp where
  | create (id : Nat) (doc : ExecutionDoc)
  | update (id : Nat) (rid : Nat)
deriving DecidableEq, Repr

/-- The document indexed by `process_single_secrule` (src/run.py:379-396). -/
def singleDoc (rname : Option String) (mtype : Option String)
    (dip drule dpay : Option String) (status : String) (payload : String) :
    ExecutionDoc :=
  { responser_name := rname, secrule_id := none, type := mtype,
    scope_for := none, start := none, detail_ip := dip,
    anomaly_score := none, paranoia_level := none, detail_rule := none,
    detail_payload := none, detail_hashed_rule := drule,
    detail_hashed_payload := dpay, payload := payload,
    relationship := none, real_id_relationship := none, status := status }

/-- The first (ip-scope) document indexed by `process_double_secrule`
(src/run.py:412-429): `for = "ip"`, `real_id_relationship = null`. -/
def ipScopeDoc (rname : Option String) (mtype : Option String)
    (dip drule dpay : Option String) (status : String) (payload : String) :
    ExecutionDoc :=
  { singleDoc rname mtype dip drule dpay status payload with
    scope_for := some ScopeRole.ip }

/-- The second (chain-scope) document indexed by `process_double_secrule`
(src/run.py:430-447): `for = "chain"`, `real_id_relationship` = the
ip-scope document's identifier. -/
def chainScopeDoc (rname : Option String) (mtype : Option String)
    (dip drule dpay : Option String) (status : String) (payload : String)
    (ipId : Nat) : ExecutionDoc :=
  { singleDoc rname mtype dip drule dpay status payload with
    scope_for := some ScopeRole.chain, real_id_relationship := some ipId }

/-- `process_single_secrule` (src/run.py:369-399): index one document and
return its identifier, together with the store operations performed. -/
def process_single_secrule (rname : Option String) (mtype : Option String)
    (dip drule dpay : Option String) (status : String) (payload : String)
    (s : Store) : Store × List StoreOp × Nat :=
  let doc := singleDoc rname mtype dip drule dpay status payload
  let r := esIndex s doc
  (r.1, [StoreOp.create r.2 doc], r.2)

/-- `process_double_secrule` (src/run.py:402-459): index the ip-scope
document, index the chain-scope document referencing it, then update the
ip-scope document to reference the chain-scope one; return both
identifiers, together with the store operations performed in order. -/
def process_double_secrule (rname : Option String) (mtype : Option String)
    (dip drule dpay : Option String) (status : String) (payload : String)
    (s : Store) : Store × List StoreOp × (Nat × Nat) :=
  let ipDoc := ipScopeDoc rname mtype dip drule dpay status payload
  let r1 := esIndex s ipDoc
  let chDoc := chainScopeDoc rname mtype dip drule dpay status payload r1.2
  let r2 := esIndex r1.1 chDoc
  let s3 := esUpdate r2.1 r1.2 r2.2
  (s3, [StoreOp.create r1.2 ipDoc, StoreOp.create r2.2 chDoc,
        StoreOp.update r1.2 r2.2], (r1.2, r2.2))

/-- The `details.ip` sub-object of an inbound message. -/
structure IpDetail where
  source_ip : Option String
deriving DecidableEq, Repr

/-- The `details` sub-object of an inbound message. -/
structure Details where
  ip : Option IpDetail
  hashed_rule : Option String
  hashed_payload : Option String
deriving DecidableEq, Repr

/-- An inbound queue message after JSON parsing. `none` on a field models
the key being absent or null (`dict.get` returns `None` for both); the
payload is kept in its serialized form. -/
structure InboundMsg where
  responser_name : Option String
  type : Option String
  details : Option Details
  payload : String
deriving DecidableEq, Repr

/-- An uncaught Python exception escaping the callback. -/
inductive PyError where
  | attributeError (msg : String)
deriving DecidableEq, Repr

/-- The local variables bound by src/run.py:128-137. -/
structure Extracted where
  responser_name : Option String
  modsec_type : Option String
  detail_ip_source : Option String
  detail_hashed_rule : Option String
  detail_hashed_payload : Option String
  payload : String
deriving DecidableEq, Repr

/-- Field extraction at the top of the callback (src/run.py:128-137).
When `details` is null, `details.get('ip')` raises `AttributeError`
(`NoneType` has no attribute `get`); when `details.ip` is null the
source guards it and leaves `detail_ip_source = None`. -/
def extractFields (m : InboundMsg) : Except PyError Extracted :=
  match m.details with
  | none => Except.error (PyError.attributeError "NoneType object has no attribute get")
  | some d =>
      Except.ok
        { responser_name := m.responser_name, modsec_type := m.type,
          detail_ip_source := d.ip.bind (fun o => o.source_ip),
          detail_hashed_rule := d.hashed_rule,
          detail_hashed_payload := d.hashed_payload,
          payload := m.payload }

/-- The per-branch duplicate predicate of the callback, one case per
`modsec_type` literal: a significant dimension is compared with the
event's extracted value, an insignificant one is required to be null
(src/run.py:140-145, 172-177, 204-209, 236-241, 268-273, 300-305,
332-337). -/
def codeMatches (t : String) (e : ExecutionDoc)
    (dip drule dpay : Option String) : Bool :=
  match t with
  | "full" =>
      e.detail_ip == dip && e.detail_hashed_rule == drule &&
      e.detail_hashed_payload == dpay
  | "onlyRegexAndPayload" =>
      e.detail_ip == none && e.detail_hashed_rule == drule &&
      e.detail_hashed_payload == dpay
  | "onlyPayload" =>
      e.detail_ip == none && e.detail_hashed_rule == none &&
      e.detail_hashed_payload == dpay
  | "onlyIP" =>
      e.detail_ip == dip && e.detail_hashed_rule == none &&
      e.detail_hashed_payload == none
  | "onlyIPAndPayload" =>
      e.detail_ip == dip && e.detail_hashed_rule == none &&
      e.detail_hashed_payload == dpay
  | "onlyIPAndRegex" =>
      e.detail_ip == dip && e.detail_hashed_rule == drule &&
      e.detail_hashed_payload == none
  | _ =>
      e.detail_ip == none && e.detail_hashed_rule == drule &&
      e.detail_hashed_payload == none

/-- The duplicate lookup: the callback filters the `match_all` search
result with the branch's predicate and tests the length (the `[...for
entity in modsecurity_executions if ...].__len__() > 0` pattern). -/
def dupFound (t : String) (docs : List (Nat × ExecutionDoc))
    (dip drule dpay : Option String) : Bool :=
  0 < (docs.filter (fun p => codeMatches t p.2 dip drule dpay)).length

/-- The seven recognized `type` literals, in the order of the source's
`if` statements (src/run.py:139, 171, 203, 235, 267, 299, 331). -/
def recognizedTypes : List String :=
  ["full", "onlyRegexAndPayload", "onlyPayload", "onlyIP",
   "onlyIPAndPayload", "onlyIPAndRegex", "onlyRegex"]

/-- An outbound queue message: the inbound object with the three
execution-id keys attached. -/
structure OutMsg where
  original : InboundMsg
  execution_id : Option Nat
  execution_id_for_ip : Option Nat
  execution_id_for_chain : Option Nat
deriving DecidableEq, Repr

/-- An observable action of the callback, in program order. -/
inductive Action where
  | store (op : StoreOp)
  | publish (o : OutMsg)
  | ack
deriving DecidableEq, Repr

/-- Body of one recognized-type branch of the callback: run the branch's
duplicate lookup over the search snapshot `docs`, then either write with
status `duplicated` (publishing nothing) or write with status `waiting`
and publish the augmented message. Writer arguments per branch are
exactly the source's (insignificant dimensions passed as `None`). -/
def handleType (t : String) (m : InboundMsg) (f : Extracted)
    (docs : List (Nat × ExecutionDoc)) (s : Store) : Store × List Action :=
  match t with
  | "full" =>
      if dupFound "full" docs f.detail_ip_source f.detail_hashed_rule f.detail_hashed_payload then
        let r := process_double_secrule f.responser_name f.modsec_type
          f.detail_ip_source f.detail_hashed_rule f.detail_hashed_payload
          "duplicated" f.payload s
        (r.1, r.2.1.map Action.store)
      else
        let r := process_double_secrule f.responser_name f.modsec_type
          f.detail_ip_source f.detail_hashed_rule f.detail_hashed_payload
          "waiting" f.payload s
        (r.1, r.2.1.map Action.store ++
          [Action.publish ⟨m, none, some r.2.2.1, some r.2.2.2⟩])
  | "onlyRegexAndPayload" =>
      if dupFound "onlyRegexAndPayload" docs f.detail_ip_source f.detail_hashed_rule f.detail_hashed_payload then
        let r := process_single_secrule f.responser_name f.modsec_type
          none f.detail_hashed_rule f.detail_hashed_payload
          "duplicated" f.payload s
        (r.1, r.2.1.map Action.store)
      else
        let r := process_single_secrule f.responser_name f.modsec_type
          none f.detail_hashed_rule f.detail_hashed_payload
          "waiting" f.payload s
        (r.1, r.2.1.map Action.store ++
          [Action.publish ⟨m, some r.2.2, none, none⟩])
  | "onlyPayload" =>
      if dupFound "onlyPayload" docs f.detail_ip_source f.detail_hashed_rule f.detail_hashed_payload then
        let r := process_single_secrule f.responser_name f.modsec_type
          none none f.detail_hashed_payload "duplicated" f.payload s
        (r.1, r.2.1.map Action.store)
      else
        let r := process_single_secrule f.responser_name f.modsec_type
          none none f.detail_hashed_payload "waiting" f.payload s
        (r.1, r.2.1.map Action.store ++
          [Action.publish ⟨m, some r.2.2, none, none⟩])
  | "onlyIP" =>
      if dupFound "onlyIP" docs f.detail_ip_source f.detail_hashed_rule f.detail_hashed_payload then
        let r := process_single_secrule f.responser_name f.modsec_type
          f.detail_ip_source none none "duplicated" f.payload s
        (r.1, r.2.1.map Action.store)
      else
        let r := process_single_secrule f.responser_name f.modsec_type
          f.detail_ip_source none none "waiting" f.payload s
        (r.1, r.2.1.map Action.store ++
          [Action.publish ⟨m, some r.2.2, none, none⟩])
  | "onlyIPAndPayload" =>
      if dupFound "onlyIPAndPayload" docs f.detail_ip_source f.detail_hashed_rule f.detail_hashed_payload then
        let r := process_double_secrule f.responser_name f.modsec_type
          f.detail_ip_source none f.detail_hashed_payload
          "duplicated" f.payload s
        (r.1, r.2.1.map Action.store)
      else
        let r := process_double_secrule f.responser_name f.modsec_type
          f.detail_ip_source none f.detail_hashed_payload
          "waiting" f.payload s
        (r.1, r.2.1.map Action.store ++
          [Action.publish ⟨m, none, some r.2.2.1, some r.2.2.2⟩])
  | "onlyIPAndRegex" =>
      if dupFound "onlyIPAndRegex" docs f.detail_ip_source f.detail_hashed_rule f.detail_hashed_payload then
        let r := process_double_secrule f.responser_name f.modsec_type
          f.detail_ip_source f.detail_hashed_rule none
          "duplicated" f.payload s
        (r.1, r.2.1.map Action.store)
      else
        let r := process_double_secrule f.responser_name f.modsec_type
          f.detail_ip_source f.detail_hashed_rule none
          "waiting" f.payload s
        (r.1, r.2.1.map Action.store ++
          [Action.publish ⟨m, none, some r.2.2.1, some r.2.2.2⟩])
  | "onlyRegex" =>
      if dupFound "onlyRegex" docs f.detail_ip_source f.detail_hashed_rule f.detail_hashed_payload then
        let r := process_single_secrule f.responser_name f.modsec_type
          none f.detail_hashed_rule none "duplicated" f.payload s
        (r.1, r.2.1.map Action.store)
      else
        let r := process_single_secrule f.responser_name f.modsec_type
          none f.detail_hashed_rule none "waiting" f.payload s
        (r.1, r.2.1.map Action.store ++
          [Action.publish ⟨m, some r.2.2, none, none⟩])
  | _ => (s, [])

/-- Result of a successful callback run. -/
structure CallbackResult where
  store : Store
  trace : List Action
deriving DecidableEq, Repr

/-- The consumer callback (src/run.py:126-363): extract fields (which may
raise), take the `match_all` search snapshot once, run the seven type
guards in source order against that snapshot, then acknowledge. -/
def callback (m : InboundMsg) (s₀ : Store) : Except PyError CallbackResult :=
  match extractFields m with
  | Except.error e => Except.error e
  | Except.ok f =>
      let docs := s₀.docs
      let res := recognizedTypes.foldl
        (fun acc t =>
          if f.modsec_type = some t then
            let r := handleType t m f docs acc.1
            (r.1, acc.2 ++ r.2)
          else acc)
        (s₀, ([] : List Action))
      Except.ok { store := res.1, trace := res.2 ++ [Action.ack] }

/-- The blocking consumer loop: messages are handled strictly in order;
an exception escaping the callback propagates out of `start_consuming`
and stops the loop, leaving later messages unprocessed. -/
def consumerRun : List InboundMsg → Store →
    List (InboundMsg × CallbackResult) × Option PyError
  | [], _ => ([], none)
  | m :: rest, s =>
      match callback m s with
      | Except.error e => ([], some e)
      | Except.ok r =>
          let tail := consumerRun rest r.store
          ((m, r) :: tail.1, tail.2)

/-- A key schema: which of the three identity dimensions are significant. -/
structure KeySchema where
  ipSig : Bool
  ruleSig : Bool
  paySig : Bool
deriving DecidableEq, Repr

/-- Whether a type's occurrence is one record or a linked pair. -/
inductive ScopeKind where
  | single
  | combined
deriving DecidableEq, Repr

/-- Spec-side definition, for comparison with the code: the
(significant-dimensions, scope-kind) table of spec section 4.1. -/
def specSchema : String → Option (KeySchema × ScopeKind)
  | "full" => some (⟨true, true, true⟩, ScopeKind.combined)
  | "onlyIPAndPayload" => some (⟨true, false, true⟩, ScopeKind.combined)
  | "onlyIPAndRegex" => some (⟨true, true, false⟩, ScopeKind.combined)
  | "onlyIP" => some (⟨true, false, false⟩, ScopeKind.single)
  | "onlyRegexAndPayload" => some (⟨false, true, true⟩, ScopeKind.single)
  | "onlyRegex" => some (⟨false, true, false⟩, ScopeKind.single)
  | "onlyPayload" => some (⟨false, false, true⟩, ScopeKind.single)
  | _ => none

/-- Spec-side generic duplicate predicate, for comparison with the code:
equality on each significant dimension, null on each insignificant one. -/
def schemaMatches (ks : KeySchema) (e : ExecutionDoc)
    (dip drule dpay : Option String) : Bool :=
  (if ks.ipSig then e.detail_ip == dip else e.detail_ip == none) &&
  (if ks.ruleSig then e.detail_hashed_rule == drule
   else e.detail_hashed_rule == none) &&
  (if ks.paySig then e.detail_hashed_payload == dpay
   else e.detail_hashed_payload == none)

/-- The documents created (indexed) along a trace, in order. -/
def createdDocs (tr : List Action) : List (Nat × ExecutionDoc) :=
  tr.filterMap (fun a =>
    match a with
    | Action.store (StoreOp.create id doc) => some (id, doc)
    | _ => none)

/-! ## Helper lemmas -/

lemma dupFound_iff (t : String) (docs : List (Nat × ExecutionDoc))
    (dip drule dpay : Option String) :
    dupFound t docs dip drule dpay = true ↔
      ∃ p ∈ docs, codeMatches t p.2 dip drule dpay = true := by
  unfold dupFound
  rw [decide_eq_true_eq, List.length_pos]
  constructor
  · intro h
    rcases List.exists_mem_of_ne_nil _ h with ⟨p, hp⟩
    exact ⟨p, (List.mem_filter.mp hp).1, (List.mem_filter.mp hp).2⟩
  · rintro ⟨p, hp, hm⟩ hnil
    exact (List.filter_eq_nil_iff.mp hnil) p hp hm

lemma codeMatches_eq_schema (t : String) (ks : KeySchema) (sk : ScopeKind)
    (h : specSchema t = some (ks, sk)) (e : ExecutionDoc)
    (dip drule dpay : Option String) :
    codeMatches t e dip drule dpay = schemaMatches ks e dip drule dpay := by
  unfold specSchema at h
  split at h <;>
    first
      | (injection h with h'; injection h' with h1 h2; subst h1;
         simp [codeMatches, schemaMatches])
      | exact absurd h (by simp)

lemma callback_recognized (t : String) (ht : t ∈ recognizedTypes)
    (m : InboundMsg) (f : Extracted) (s : Store)
    (hx : extractFields m = Except.ok f) (hty : f.modsec_type = some t) :
    callback m s = Except.ok
      { store := (handleType t m f s.docs s).1,
        trace := (handleType t m f s.docs s).2 ++ [Action.ack] } := by
  fin_cases ht <;>
  · unfold callback
    rw [hx]
    simp only [recognizedTypes, List.foldl, hty]
    simp

lemma dupFound_nil (t : String) (dip drule dpay : Option String) :
    dupFound t [] dip drule dpay = false := rfl

lemma dupFound_cons (t : String) (p : Nat × ExecutionDoc)
    (l : List (Nat × ExecutionDoc)) (dip drule dpay : Option String) :
    dupFound t (p :: l) dip drule dpay =
      (codeMatches t p.2 dip drule dpay || dupFound t l dip drule dpay) := by
  rw [Bool.eq_iff_iff, Bool.or_eq_true, dupFound_iff, dupFound_iff]
  simp [List.mem_cons, or_and_right, exists_or]

lemma codeMatches_congr (t : String) (d₁ d₂ : ExecutionDoc)
    (h1 : d₁.detail_ip = d₂.detail_ip)
    (h2 : d₁.detail_hashed_rule = d₂.detail_hashed_rule)
    (h3 : d₁.detail_hashed_payload = d₂.detail_hashed_payload)
    (dip drule dpay : Option String) :
    codeMatches t d₁ dip drule dpay = codeMatches t d₂ dip drule dpay := by
  unfold codeMatches
  split <;> rw [h1, h2, h3]

lemma createdDocs_append (l₁ l₂ : List Action) :
    createdDocs (l₁ ++ l₂) = createdDocs l₁ ++ createdDocs l₂ :=
  List.filterMap_append l₁ l₂ _

lemma handleType_no_ack (t : String) (m : InboundMsg) (f : Extracted)
    (docs : List (Nat × ExecutionDoc)) (s : Store) :
    Action.ack ∉ (handleType t m f docs s).2 := by
  unfold handleType
  split <;>
    first
      | (split <;>
          simp [process_single_secrule, process_double_secrule, esIndex])
      | simp

lemma createdDocs_single (rname mtype dip drule dpay : Option String)
    (st pl : String) (s : Store) :
    createdDocs (List.map Action.store
        (process_single_secrule rname mtype dip drule dpay st pl s).2.1) =
      [(s.nextId, singleDoc rname mtype dip drule dpay st pl)] := rfl

lemma createdDocs_double (rname mtype dip drule dpay : Option String)
    (st pl : String) (s : Store) :
    createdDocs (List.map Action.store
        (process_double_secrule rname mtype dip drule dpay st pl s).2.1) =
      [(s.nextId, ipScopeDoc rname mtype dip drule dpay st pl),
       (s.nextId + 1, chainScopeDoc rname mtype dip drule dpay st pl s.nextId)] := rfl

lemma createdDocs_publish (o : OutMsg) : createdDocs [Action.publish o] = [] := rfl

lemma handleType_status (t : String) (m : InboundMsg) (f : Extracted)
    (docs : List (Nat × ExecutionDoc)) (s : Store) (p : Nat × ExecutionDoc)
    (hp : p ∈ createdDocs (handleType t m f docs s).2) :
    p.2.status =
      if dupFound t docs f.detail_ip_source f.detail_hashed_rule
          f.detail_hashed_payload = true then "duplicated" else "waiting" := by
  revert hp
  unfold handleType
  split <;>
    (split <;> rename_i hc <;> intro hp <;>
      simp [createdDocs_append, createdDocs_single, createdDocs_double,
        createdDocs_publish] at hp <;>
      rcases hp with rfl | rfl <;>
      simp [hc, ipScopeDoc, chainScopeDoc, singleDoc])

lemma dupFound_append (t : String) (l₁ l₂ : List (Nat × ExecutionDoc))
    (dip drule dpay : Option String) :
    dupFound t (l₁ ++ l₂) dip drule dpay =
      (dupFound t l₁ dip drule dpay || dupFound t l₂ dip drule dpay) := by
  rw [Bool.eq_iff_iff, Bool.or_eq_true, dupFound_iff, dupFound_iff, dupFound_iff]
  simp [List.mem_append, or_and_right, exists_or]

lemma dupFound_singleton (t : String) (p : Nat × ExecutionDoc)
    (dip drule dpay : Option String) :
    dupFound t [p] dip drule dpay = codeMatches t p.2 dip drule dpay := by
  rw [Bool.eq_iff_iff, dupFound_iff]
  simp

lemma single_store_docs (rname mtype dip drule dpay : Option String)
    (st pl : String) (s : Store) :
    (process_single_secrule rname mtype dip drule dpay st pl s).1.docs =
      s.docs ++ [(s.nextId, singleDoc rname mtype dip drule dpay st pl)] := rfl

lemma double_store_docs (rname mtype dip drule dpay : Option String)
    (st pl : String) (s : Store) :
    (process_double_secrule rname mtype dip drule dpay st pl s).1.docs =
      s.docs.map (fun p => if p.1 = s.nextId
          then (p.1, { p.2 with real_id_relationship := some (s.nextId + 1) })
          else p) ++
        [(s.nextId, { ipScopeDoc rname mtype dip drule dpay st pl with
            real_id_relationship := some (s.nextId + 1) }),
         (s.nextId + 1, chainScopeDoc rname mtype dip drule dpay st pl s.nextId)] := by
  unfold process_double_secrule esUpdate esIndex
  simp

lemma handleType_publish_mem (t : String) (ht : t ∈ recognizedTypes)
    (m : InboundMsg) (f : Extracted) (docs : List (Nat × ExecutionDoc))
    (s : Store) :
    (∃ o, Action.publish o ∈ (handleType t m f docs s).2) ↔
      dupFound t docs f.detail_ip_source f.detail_hashed_rule
        f.detail_hashed_payload = false := by
  fin_cases ht <;>
    (unfold handleType
     split <;> rename_i heq <;>
       first
         | exact absurd heq (by decide)
         | (split <;> rename_i hc <;>
             simp_all [process_single_secrule, process_double_secrule, esIndex])
         | simp_all)

lemma handleType_created_ne_nil (t : String) (ht : t ∈ recognizedTypes)
    (m : InboundMsg) (f : Extracted) (docs : List (Nat × ExecutionDoc))
    (s : Store) :
    createdDocs (handleType t m f docs s).2 ≠ [] := by
  fin_cases ht <;>
    (unfold handleType
     split <;> rename_i heq <;>
       first
         | exact absurd heq (by decide)
         | (split <;>
             simp [createdDocs_append, createdDocs_single, createdDocs_double,
               createdDocs_publish])
         | simp_all)

lemma handleType_self_match (t : String) (ht : t ∈ recognizedTypes)
    (m : InboundMsg) (f : Extracted) (docs : List (Nat × ExecutionDoc))
    (s : Store) :
    dupFound t ((handleType t m f docs s).1).docs f.detail_ip_source
      f.detail_hashed_rule f.detail_hashed_payload = true := by
  fin_cases ht <;>
    (unfold handleType
     split <;> rename_i heq <;>
       first
         | exact absurd heq (by decide)
         | (split <;>
             simp [single_store_docs, double_store_docs, dupFound_append,
               dupFound_singleton, dupFound_cons, dupFound_nil, codeMatches,
               singleDoc, ipScopeDoc, chainScopeDoc])
         | simp_all)

lemma specSchema_mem_recognized (t : String) (ks : KeySchema) (sk : ScopeKind)
    (h : specSchema t = some (ks, sk)) : t ∈ recognizedTypes := by
  unfold specSchema at h
  split at h <;> simp_all [recognizedTypes]

lemma handleType_publish_shape (t : String) (ks : KeySchema) (sk : ScopeKind)
    (h : specSchema t = some (ks, sk)) (m : InboundMsg) (f : Extracted)
    (docs : List (Nat × ExecutionDoc)) (s : Store) (o : OutMsg)
    (ho : Action.publish o ∈ (handleType t m f docs s).2) :
    o.original = m ∧
    (sk = ScopeKind.single → (∃ i, o.execution_id = some i) ∧
      o.execution_id_for_ip = none ∧ o.execution_id_for_chain = none) ∧
    (sk = ScopeKind.combined → o.execution_id = none ∧
      (∃ i, o.execution_id_for_ip = some i) ∧
      (∃ j, o.execution_id_for_chain = some j)) := by
  have ht : t ∈ recognizedTypes := specSchema_mem_recognized t ks sk h
  revert ho
  fin_cases ht <;>
    (simp only [specSchema, Option.some.injEq, Prod.mk.injEq] at h
     obtain ⟨hks, hsk⟩ := h
     subst hks; subst hsk
     unfold handleType
     split <;> rename_i heq <;>
       first
         | exact absurd heq (by decide)
         | (split <;> intro ho <;>
             simp_all [process_single_secrule, process_double_secrule, esIndex])
         | simp_all)

lemma upd_fst (n rid : Nat) (p : Nat × ExecutionDoc) :
    ((if p.1 = n then (p.1, { p.2 with real_id_relationship := some rid })
      else p) : Nat × ExecutionDoc).1 = p.1 := by
  split <;> rfl

lemma find_double_ip (rname mtype dip drule dpay : Option String)
    (st pl : String) (s : Store) (h : Store.WF s) :
    Store.find (process_double_secrule rname mtype dip drule dpay st pl s).1
        s.nextId =
      some { ipScopeDoc rname mtype dip drule dpay st pl with
        real_id_relationship := some (s.nextId + 1) } := by
  unfold Store.find
  rw [double_store_docs, List.find?_append]
  have hnone : (s.docs.map (fun p => if p.1 = s.nextId
      then (p.1, { p.2 with real_id_relationship := some (s.nextId + 1) })
      else p)).find? (fun p => p.1 == s.nextId) = none := by
    rw [List.find?_eq_none]
    intro x hx
    rcases List.mem_map.mp hx with ⟨y, hy, rfl⟩
    have hlt := h y hy
    simp [upd_fst, Nat.ne_of_lt hlt]
  rw [hnone]
  simp

lemma find_double_chain (rname mtype dip drule dpay : Option String)
    (st pl : String) (s : Store) (h : Store.WF s) :
    Store.find (process_double_secrule rname mtype dip drule dpay st pl s).1
        (s.nextId + 1) =
      some (chainScopeDoc rname mtype dip drule dpay st pl s.nextId) := by
  unfold Store.find
  rw [double_store_docs, List.find?_append]
  have hnone : (s.docs.map (fun p => if p.1 = s.nextId
      then (p.1, { p.2 with real_id_relationship := some (s.nextId + 1) })
      else p)).find? (fun p => p.1 == s.nextId + 1) = none := by
    rw [List.find?_eq_none]
    intro x hx
    rcases List.mem_map.mp hx with ⟨y, hy, rfl⟩
    have hlt := h y hy
    have : y.1 ≠ s.nextId + 1 := by omega
    simp [upd_fst, this]
  rw [hnone]
  simp

lemma createdDocs_ack : createdDocs [Action.ack] = [] := rfl

lemma schemaMatches_eq_true_iff (ks : KeySchema) (e : ExecutionDoc)
    (dip drule dpay : Option String) :
    schemaMatches ks e dip drule dpay = true ↔
      (if ks.ipSig then e.detail_ip = dip else e.detail_ip = none) ∧
      (if ks.ruleSig then e.detail_hashed_rule = drule
       else e.detail_hashed_rule = none) ∧
      (if ks.paySig then e.detail_hashed_payload = dpay
       else e.detail_hashed_payload = none) := by
  unfold schemaMatches
  rcases ks with ⟨ip, ru, pa⟩
  cases ip <;> cases ru <;> cases pa <;> simp [and_assoc]

lemma foldl_trace_no_ack (m : InboundMsg) (f : Extracted)
    (docs : List (Nat × ExecutionDoc)) (ts : List String)
    (acc : Store × List Action) (hacc : Action.ack ∉ acc.2) :
    Action.ack ∉ (ts.foldl (fun acc t =>
      if f.modsec_type = some t then
        let r := handleType t m f docs acc.1
        (r.1, acc.2 ++ r.2)
      else acc) acc).2 := by
  induction ts generalizing acc with
  | nil => exact hacc
  | cons t ts ih =>
      rw [List.foldl_cons]
      apply ih
      split
      · intro hmem
        simp at hmem
        rcases hmem with h1 | h2
        · exact hacc h1
        · exact handleType_no_ack t m f docs _ h2
      · exact hacc

/-- Concrete sample inbound message: type `onlyIP`, source ip 1.2.3.4. -/
def sampleMsg : InboundMsg :=
  { responser_name := some "r", type := some "onlyIP",
    details := some ⟨some ⟨some "1.2.3.4"⟩, none, none⟩,
    payload := "null" }

/-- The field extraction of `sampleMsg`. -/
def sampleExtract : Extracted :=
  { responser_name := some "r", modsec_type := some "onlyIP",
    detail_ip_source := some "1.2.3.4", detail_hashed_rule := none,
    detail_hashed_payload := none, payload := "null" }

/-- A store with no documents. -/
def emptyStore : Store := { nextId := 0, docs := [] }

/-! ## Claim theorems -/

/-- C1: for each of the seven recognized classification types, the branch
taken computes exactly the (significant-dimensions, scope-kind) pair of
the spec table: the branch's duplicate predicate coincides with the
generic schema predicate of the table's key schema, the branch creates
two records exactly when the table says `combined` and one otherwise,
and the table's scope kind is `combined` iff ip is significant together
with at least one other dimension. -/
theorem C1_classifier_table :
    ∀ t ks sk, specSchema t = some (ks, sk) →
      (∀ e dip drule dpay,
        codeMatches t e dip drule dpay = schemaMatches ks e dip drule dpay) ∧
      (∀ (m : InboundMsg) (f : Extracted) docs (s : Store),
        (createdDocs (handleType t m f docs s).2).length =
          if sk = ScopeKind.combined then 2 else 1) ∧
      (sk = ScopeKind.combined ↔
        ks.ipSig = true ∧ (ks.ruleSig = true ∨ ks.paySig = true)) := by
  intro t ks sk h
  refine ⟨fun e dip drule dpay =>
    codeMatches_eq_schema t ks sk h e dip drule dpay, ?_, ?_⟩
  · intro m f docs s
    have ht := specSchema_mem_recognized t ks sk h
    fin_cases ht <;>
      (simp only [specSchema, Option.some.injEq, Prod.mk.injEq] at h
       obtain ⟨hks, hsk⟩ := h
       subst hks; subst hsk
       unfold handleType
       split <;> rename_i heq <;>
         first
           | exact absurd heq (by decide)
           | exact absurd rfl (by assumption)
           | (split <;>
               simp [createdDocs_append, createdDocs_single,
                 createdDocs_double, createdDocs_publish]))
  · have ht := specSchema_mem_recognized t ks sk h
    fin_cases ht <;>
      (simp only [specSchema, Option.some.injEq, Prod.mk.injEq] at h
       obtain ⟨hks, hsk⟩ := h
       subst hks; subst hsk
       simp)

/-- Witness for C1 at type `onlyIP`. -/
theorem C1_classifier_table_witness :
    codeMatches "onlyIP"
        (singleDoc (some "r") (some "onlyIP") (some "1.2.3.4") none none
          "waiting" "null") (some "1.2.3.4") none none =
      schemaMatches ⟨true, false, false⟩
        (singleDoc (some "r") (some "onlyIP") (some "1.2.3.4") none none
          "waiting" "null") (some "1.2.3.4") none none :=
  (C1_classifier_table "onlyIP" ⟨true, false, false⟩ ScopeKind.single rfl).1
    _ _ _ _

/-- C2: the duplicate lookup reports a duplicate iff some stored record
equals the event on every significant dimension and is null on every
insignificant one; and the status of every record the branch then writes
is `duplicated` exactly when the lookup reported a duplicate, `waiting`
otherwise. -/
theorem C2_duplicate_lookup :
    ∀ t ks sk, specSchema t = some (ks, sk) →
    ∀ (docs : List (Nat × ExecutionDoc)) (dip drule dpay : Option String),
      (dupFound t docs dip drule dpay = true ↔
        ∃ p ∈ docs,
          (if ks.ipSig then p.2.detail_ip = dip else p.2.detail_ip = none) ∧
          (if ks.ruleSig then p.2.detail_hashed_rule = drule
           else p.2.detail_hashed_rule = none) ∧
          (if ks.paySig then p.2.detail_hashed_payload = dpay
           else p.2.detail_hashed_payload = none)) ∧
      (∀ (m : InboundMsg) (f : Extracted) (s : Store),
        f.detail_ip_source = dip → f.detail_hashed_rule = drule →
        f.detail_hashed_payload = dpay →
        ∀ p ∈ createdDocs (handleType t m f docs s).2,
          p.2.status =
            if dupFound t docs dip drule dpay = true then "duplicated"
            else "waiting") := by
  intro t ks sk h docs dip drule dpay
  constructor
  · rw [dupFound_iff]
    exact exists_congr fun p => and_congr_right fun _ => by
      rw [codeMatches_eq_schema t ks sk h, schemaMatches_eq_true_iff]
  · intro m f s h1 h2 h3 p hp
    have := handleType_status t m f docs s p hp
    rw [h1, h2, h3] at this
    exact this

/-- Witness for C2: at type `onlyIP` with an empty store, the record
written carries status `waiting`. -/
theorem C2_duplicate_lookup_witness :
    (0, singleDoc (some "r") (some "onlyIP") (some "1.2.3.4") none none
      "waiting" "null").2.status =
      if dupFound "onlyIP" [] (some "1.2.3.4") none none = true
      then "duplicated" else "waiting" :=
  (C2_duplicate_lookup "onlyIP" ⟨true, false, false⟩ ScopeKind.single rfl
    [] (some "1.2.3.4") none none).2 sampleMsg sampleExtract emptyStore
    rfl rfl rfl _ (by decide)

/-- C3: for every combined-scope write, the writer performs exactly three
store operations in order — create the ip-scope record (with null
`real_id_relationship`), create the chain-scope record whose
`real_id_relationship` is the ip-scope identifier, update the ip-scope
record's `real_id_relationship` to the chain-scope identifier — after
which reading the ip-scope record shows the link; and the writer returns
the pair (ip-scope id, chain-scope id). -/
theorem C3_combined_writer :
    ∀ (rname mtype dip drule dpay : Option String) (st pl : String)
      (s : Store), Store.WF s →
      (process_double_secrule rname mtype dip drule dpay st pl s).2.1 =
        [StoreOp.create s.nextId (ipScopeDoc rname mtype dip drule dpay st pl),
         StoreOp.create (s.nextId + 1)
           (chainScopeDoc rname mtype dip drule dpay st pl s.nextId),
         StoreOp.update s.nextId (s.nextId + 1)] ∧
      (chainScopeDoc rname mtype dip drule dpay st pl
        s.nextId).real_id_relationship = some s.nextId ∧
      (ipScopeDoc rname mtype dip drule dpay st pl).real_id_relationship =
        none ∧
      Store.find (process_double_secrule rname mtype dip drule dpay st pl s).1
          s.nextId =
        some { ipScopeDoc rname mtype dip drule dpay st pl with
          real_id_relationship := some (s.nextId + 1) } ∧
      (process_double_secrule rname mtype dip drule dpay st pl s).2.2 =
        (s.nextId, s.nextId + 1) := by
  intro rname mtype dip drule dpay st pl s h
  exact ⟨rfl, rfl, rfl, find_double_ip rname mtype dip drule dpay st pl s h,
    rfl⟩

/-- Witness for C3: the link-back read on an initially empty store. -/
theorem C3_combined_writer_witness :
    Store.find (process_double_secrule (some "r") (some "full")
        (some "5.6.7.8") (some "r1") (some "p1") "waiting" "null"
        emptyStore).1 emptyStore.nextId =
      some { ipScopeDoc (some "r") (some "full") (some "5.6.7.8")
          (some "r1") (some "p1") "waiting" "null" with
        real_id_relationship := some (emptyStore.nextId + 1) } :=
  (C3_combined_writer (some "r") (some "full") (some "5.6.7.8") (some "r1")
    (some "p1") "waiting" "null" emptyStore
    (by intro p hp; simp [emptyStore] at hp)).2.2.2.1

/-- C4: the single-scope writer persists exactly one record with
`for = null` and `real_id_relationship = null`, carrying the given status
and identity values, and returns that record's identifier; moreover, in
every single-scope branch of the callback the created record's identity
fields are the event's values on significant dimensions and null on the
others. -/
theorem C4_single_writer :
    ∀ (rname mtype dip drule dpay : Option String) (st pl : String)
      (s : Store),
      process_single_secrule rname mtype dip drule dpay st pl s =
        ({ nextId := s.nextId + 1,
           docs := s.docs ++
             [(s.nextId, singleDoc rname mtype dip drule dpay st pl)] },
         [StoreOp.create s.nextId (singleDoc rname mtype dip drule dpay st pl)],
         s.nextId) ∧
      (singleDoc rname mtype dip drule dpay st pl).scope_for = none ∧
      (singleDoc rname mtype dip drule dpay st pl).real_id_relationship =
        none ∧
      (singleDoc rname mtype dip drule dpay st pl).status = st ∧
      (singleDoc rname mtype dip drule dpay st pl).detail_ip = dip ∧
      (singleDoc rname mtype dip drule dpay st pl).detail_hashed_rule =
        drule ∧
      (singleDoc rname mtype dip drule dpay st pl).detail_hashed_payload =
        dpay ∧
      (∀ t ks (m : InboundMsg) (f : Extracted) docs,
        specSchema t = some (ks, ScopeKind.single) →
        ∀ p ∈ createdDocs (handleType t m f docs s).2,
          p.2.scope_for = none ∧ p.2.real_id_relationship = none ∧
          p.2.detail_ip = (if ks.ipSig then f.detail_ip_source else none) ∧
          p.2.detail_hashed_rule =
            (if ks.ruleSig then f.detail_hashed_rule else none) ∧
          p.2.detail_hashed_payload =
            (if ks.paySig then f.detail_hashed_payload else none)) := by
  intro rname mtype dip drule dpay st pl s
  refine ⟨rfl, rfl, rfl, rfl, rfl, rfl, rfl, ?_⟩
  intro t ks m f docs h p hp
  revert hp
  have ht := specSchema_mem_recognized t ks ScopeKind.single h
  fin_cases ht <;>
    (simp only [specSchema, Option.some.injEq, Prod.mk.injEq] at h
     first
       | (exact absurd h.2 (by decide))
       | (obtain ⟨hks, -⟩ := h
          subst hks
          unfold handleType
          split <;> rename_i heq <;>
            first
              | exact absurd heq (by decide)
              | exact absurd rfl (by assumption)
              | (split <;> intro hp <;>
                  simp [createdDocs_append, createdDocs_single,
                    createdDocs_publish] at hp <;>
                  subst hp <;> simp [singleDoc])))

/-- Witness for C4 at type `onlyIP` on an empty store. -/
theorem C4_single_writer_witness :
    (0, singleDoc (some "r") (some "onlyIP") (some "1.2.3.4") none none
        "waiting" "null").2.scope_for = none ∧
    (0, singleDoc (some "r") (some "onlyIP") (some "1.2.3.4") none none
        "waiting" "null").2.real_id_relationship = none ∧
    (0, singleDoc (some "r") (some "onlyIP") (some "1.2.3.4") none none
        "waiting" "null").2.detail_ip = some "1.2.3.4" ∧
    (0, singleDoc (some "r") (some "onlyIP") (some "1.2.3.4") none none
        "waiting" "null").2.detail_hashed_rule = none ∧
    (0, singleDoc (some "r") (some "onlyIP") (some "1.2.3.4") none none
        "waiting" "null").2.detail_hashed_payload = none :=
  (C4_single_writer (some "r") (some "onlyIP") (some "1.2.3.4") none none
    "waiting" "null" emptyStore).2.2.2.2.2.2.2 "onlyIP" ⟨true, false, false⟩
    sampleMsg sampleExtract [] rfl _ (by decide)

/-- C5: a message is published iff the duplicate lookup found nothing
(status `waiting`); any published message is the inbound object with
`execution_id` set and the pair keys null for single scope, or
`execution_id` null and both pair keys set for combined scope. -/
theorem C5_forward_iff_waiting :
    ∀ t ks sk, specSchema t = some (ks, sk) →
    ∀ (m : InboundMsg) (f : Extracted) (docs : List (Nat × ExecutionDoc))
      (s : Store),
      ((∃ o, Action.publish o ∈ (handleType t m f docs s).2) ↔
        dupFound t docs f.detail_ip_source f.detail_hashed_rule
          f.detail_hashed_payload = false) ∧
      (∀ o : OutMsg, Action.publish o ∈ (handleType t m f docs s).2 →
        o.original = m ∧
        (sk = ScopeKind.single → (∃ i, o.execution_id = some i) ∧
          o.execution_id_for_ip = none ∧ o.execution_id_for_chain = none) ∧
        (sk = ScopeKind.combined → o.execution_id = none ∧
          (∃ i, o.execution_id_for_ip = some i) ∧
          (∃ j, o.execution_id_for_chain = some j))) := by
  intro t ks sk h m f docs s
  exact ⟨handleType_publish_mem t (specSchema_mem_recognized t ks sk h)
      m f docs s,
    fun o ho => handleType_publish_shape t ks sk h m f docs s o ho⟩

/-- Witness for C5: the message published for `sampleMsg` on an empty
store carries the original inbound object. -/
theorem C5_forward_iff_waiting_witness :
    (⟨sampleMsg, some 0, none, none⟩ : OutMsg).original = sampleMsg :=
  ((C5_forward_iff_waiting "onlyIP" ⟨true, false, false⟩ ScopeKind.single rfl
      sampleMsg sampleExtract [] emptyStore).2
    ⟨sampleMsg, some 0, none, none⟩ (by decide)).1

/-- An inbound message whose `type` is none of the seven recognized
literals. -/
def unknownTypeMsg : InboundMsg :=
  { responser_name := some "r", type := some "bogusType",
    details := some ⟨none, none, none⟩, payload := "null" }

/-- A second unrecognized-type message, against a non-empty store. -/
def unknownTypeMsg2 : InboundMsg :=
  { responser_name := some "other", type := some "fullish",
    details := some ⟨some ⟨some "9.9.9.9"⟩, some "rh", some "ph"⟩,
    payload := "null" }

/-- A one-document store. -/
def oneDocStore : Store :=
  { nextId := 1,
    docs := [(0, singleDoc (some "r") (some "onlyIP") (some "1.2.3.4")
      none none "waiting" "null")] }

/-- Counterexample to C6: an event with an unrecognized classification
type is processed without any error being surfaced — the callback
returns successfully, having written nothing, published nothing, and
acknowledged the message. -/
theorem C6_counterexample_no_failure :
    callback unknownTypeMsg emptyStore =
      Except.ok { store := emptyStore, trace := [Action.ack] } := rfl

/-- C6 as amended: an inbound event whose classification type is not one
of the seven recognized literals is silently ignored — no store write,
no publish, no error; the message is acknowledged as if processed. -/
theorem C6_amended_unrecognized_ignored :
    ∀ (m : InboundMsg) (f : Extracted) (s : Store),
      extractFields m = Except.ok f →
      (∀ t ∈ recognizedTypes, f.modsec_type ≠ some t) →
      callback m s = Except.ok { store := s, trace := [Action.ack] } := by
  intro m f s hx ht
  unfold callback
  rw [hx]
  simp only [recognizedTypes, List.foldl]
  rw [if_neg (ht "full" (by simp [recognizedTypes])),
      if_neg (ht "onlyRegexAndPayload" (by simp [recognizedTypes])),
      if_neg (ht "onlyPayload" (by simp [recognizedTypes])),
      if_neg (ht "onlyIP" (by simp [recognizedTypes])),
      if_neg (ht "onlyIPAndPayload" (by simp [recognizedTypes])),
      if_neg (ht "onlyIPAndRegex" (by simp [recognizedTypes])),
      if_neg (ht "onlyRegex" (by simp [recognizedTypes]))]
  simp

/-- Witness for the amended C6, at a second unrecognized type against a
non-empty store. -/
theorem C6_amended_unrecognized_ignored_witness :
    callback unknownTypeMsg2 oneDocStore =
      Except.ok { store := oneDocStore, trace := [Action.ack] } :=
  C6_amended_unrecognized_ignored unknownTypeMsg2
    { responser_name := some "other", modsec_type := some "fullish",
      detail_ip_source := some "9.9.9.9", detail_hashed_rule := some "rh",
      detail_hashed_payload := some "ph", payload := "null" }
    oneDocStore rfl (by decide)

/-- C7: whenever the callback completes, the trace it produces contains
exactly one acknowledgment, and it is the last action — after the whole
classify/lookup/write/forward pipeline, for both the `waiting` and the
`duplicated` outcome. -/
theorem C7_ack_exactly_once :
    ∀ (m : InboundMsg) (s : Store) (r : CallbackResult),
      callback m s = Except.ok r →
      r.trace.count Action.ack = 1 ∧
      r.trace.getLast? = some Action.ack := by
  intro m s r h
  unfold callback at h
  cases hx : extractFields m with
  | error e => rw [hx] at h; exact absurd h (by simp)
  | ok f =>
      rw [hx] at h
      simp only [Except.ok.injEq] at h
      subst h
      have hno : Action.ack ∉ (recognizedTypes.foldl (fun acc t =>
          if f.modsec_type = some t then
            let r := handleType t m f s.docs acc.1
            (r.1, acc.2 ++ r.2)
          else acc) (s, ([] : List Action))).2 :=
        foldl_trace_no_ack m f s.docs recognizedTypes (s, []) (by simp)
      constructor
      · rw [List.count_append]
        rw [List.count_eq_zero.mpr hno]
        rfl
      · exact List.getLast?_concat _

/-- Witness for C7 at `sampleMsg` on the empty store. -/
theorem C7_ack_exactly_once_witness :
    ({ store := { nextId := 1, docs := [(0, singleDoc (some "r")
          (some "onlyIP") (some "1.2.3.4") none none "waiting" "null")] },
       trace := [Action.store (StoreOp.create 0 (singleDoc (some "r")
          (some "onlyIP") (some "1.2.3.4") none none "waiting" "null")),
         Action.publish ⟨sampleMsg, some 0, none, none⟩,
         Action.ack] } : CallbackResult).trace.count Action.ack = 1 ∧
    ({ store := { nextId := 1, docs := [(0, singleDoc (some "r")
          (some "onlyIP") (some "1.2.3.4") none none "waiting" "null")] },
       trace := [Action.store (StoreOp.create 0 (singleDoc (some "r")
          (some "onlyIP") (some "1.2.3.4") none none "waiting" "null")),
         Action.publish ⟨sampleMsg, some 0, none, none⟩,
         Action.ack] } : CallbackResult).trace.getLast? =
      some Action.ack :=
  C7_ack_exactly_once sampleMsg emptyStore _ rfl

/-- The failing input for C8: an inbound message whose `details` field is
null, a shape the external interface permits. -/
def nullDetailsMsg : InboundMsg :=
  { responser_name := some "r", type := some "onlyIP", details := none,
    payload := "null" }

/-- C8 evaluation: on a message with null `details`, the callback's field
extraction raises (`details.get` on `None`), the exception propagates
out of the consumer loop, and the following well-formed message is never
processed — the loop does not survive the malformed message. -/
theorem C8_crash_on_null_details :
    consumerRun [nullDetailsMsg, sampleMsg] emptyStore =
      ([], some (PyError.attributeError
        "NoneType object has no attribute get")) := rfl

/-- C9: the two records of a combined-scope write carry identical values
in all three identity fields and the same (given) status — for the
`waiting` as well as the `duplicated` outcome. -/
theorem C9_pair_identity :
    ∀ (rname mtype dip drule dpay : Option String) (st pl : String)
      (s : Store), Store.WF s →
      ∀ d1 d2,
        Store.find (process_double_secrule rname mtype dip drule dpay st pl
          s).1 s.nextId = some d1 →
        Store.find (process_double_secrule rname mtype dip drule dpay st pl
          s).1 (s.nextId + 1) = some d2 →
        d1.detail_ip = d2.detail_ip ∧
        d1.detail_hashed_rule = d2.detail_hashed_rule ∧
        d1.detail_hashed_payload = d2.detail_hashed_payload ∧
        d1.status = st ∧ d2.status = st := by
  intro rname mtype dip drule dpay st pl s h d1 d2 h1 h2
  rw [find_double_ip rname mtype dip drule dpay st pl s h] at h1
  rw [find_double_chain rname mtype dip drule dpay st pl s h] at h2
  injection h1 with h1
  injection h2 with h2
  subst h1
  subst h2
  exact ⟨rfl, rfl, rfl, rfl, rfl⟩

/-- Witness for C9 with the `duplicated` status on an empty store. -/
theorem C9_pair_identity_witness :
    ({ ipScopeDoc (some "r") (some "full") (some "5.6.7.8") (some "r1")
        (some "p1") "duplicated" "null" with
      real_id_relationship := some (emptyStore.nextId + 1) }).detail_ip =
      (chainScopeDoc (some "r") (some "full") (some "5.6.7.8") (some "r1")
        (some "p1") "duplicated" "null" emptyStore.nextId).detail_ip ∧
    ({ ipScopeDoc (some "r") (some "full") (some "5.6.7.8") (some "r1")
        (some "p1") "duplicated" "null" with
      real_id_relationship := some (emptyStore.nextId + 1)
        }).detail_hashed_rule =
      (chainScopeDoc (some "r") (some "full") (some "5.6.7.8") (some "r1")
        (some "p1") "duplicated" "null"
        emptyStore.nextId).detail_hashed_rule ∧
    ({ ipScopeDoc (some "r") (some "full") (some "5.6.7.8") (some "r1")
        (some "p1") "duplicated" "null" with
      real_id_relationship := some (emptyStore.nextId + 1)
        }).detail_hashed_payload =
      (chainScopeDoc (some "r") (some "full") (some "5.6.7.8") (some "r1")
        (some "p1") "duplicated" "null"
        emptyStore.nextId).detail_hashed_payload ∧
    ({ ipScopeDoc (some "r") (some "full") (some "5.6.7.8") (some "r1")
        (some "p1") "duplicated" "null" with
      real_id_relationship := some (emptyStore.nextId + 1) }).status =
      "duplicated" ∧
    (chainScopeDoc (some "r") (some "full") (some "5.6.7.8") (some "r1")
      (some "p1") "duplicated" "null" emptyStore.nextId).status =
      "duplicated" :=
  C9_pair_identity (some "r") (some "full") (some "5.6.7.8") (some "r1")
    (some "p1") "duplicated" "null" emptyStore
    (by intro p hp; simp [emptyStore] at hp) _ _ rfl rfl

/-- C10: the duplicate decision reads only the three detail fields — it
is invariant under changing every other stored field (responser name,
type, status, payload, ...) pointwise; consequently, running the
callback on two events with equal detail values and the same recognized
type but arbitrary (possibly different) responser names makes the
second run write only `duplicated` records and publish nothing. -/
theorem C10_lookup_noninterference :
    ∀ t : String,
      (∀ (docs₁ docs₂ : List (Nat × ExecutionDoc))
         (dip drule dpay : Option String),
        List.Forall₂ (fun p q : Nat × ExecutionDoc =>
          p.2.detail_ip = q.2.detail_ip ∧
          p.2.detail_hashed_rule = q.2.detail_hashed_rule ∧
          p.2.detail_hashed_payload = q.2.detail_hashed_payload)
          docs₁ docs₂ →
        dupFound t docs₁ dip drule dpay = dupFound t docs₂ dip drule dpay) ∧
      (t ∈ recognizedTypes →
        ∀ (m₁ m₂ : InboundMsg) (f₁ f₂ : Extracted) (s : Store)
          (r₁ : CallbackResult),
          extractFields m₁ = Except.ok f₁ →
          extractFields m₂ = Except.ok f₂ →
          f₁.modsec_type = some t → f₂.modsec_type = some t →
          f₁.detail_ip_source = f₂.detail_ip_source →
          f₁.detail_hashed_rule = f₂.detail_hashed_rule →
          f₁.detail_hashed_payload = f₂.detail_hashed_payload →
          callback m₁ s = Except.ok r₁ →
          ∃ r₂, callback m₂ r₁.store = Except.ok r₂ ∧
            createdDocs r₂.trace ≠ [] ∧
            (∀ p ∈ createdDocs r₂.trace, p.2.status = "duplicated") ∧
            (∀ o : OutMsg, Action.publish o ∉ r₂.trace)) := by
  intro t
  constructor
  · intro docs₁ docs₂ dip drule dpay hf
    induction hf with
    | nil => rfl
    | cons hpq _ ih =>
        rw [dupFound_cons, dupFound_cons, ih,
          codeMatches_congr t _ _ hpq.1 hpq.2.1 hpq.2.2]
  · intro ht m₁ m₂ f₁ f₂ s r₁ hx1 hx2 hty1 hty2 hip hrule hpay hc1
    have hr1 := hc1.symm.trans (callback_recognized t ht m₁ f₁ s hx1 hty1)
    simp only [Except.ok.injEq] at hr1
    have hstore : r₁.store = (handleType t m₁ f₁ s.docs s).1 := by rw [hr1]
    have hdup : dupFound t r₁.store.docs f₂.detail_ip_source
        f₂.detail_hashed_rule f₂.detail_hashed_payload = true := by
      rw [hstore, ← hip, ← hrule, ← hpay]
      exact handleType_self_match t ht m₁ f₁ s.docs s
    refine ⟨_, callback_recognized t ht m₂ f₂ r₁.store hx2 hty2, ?_, ?_, ?_⟩
    · rw [createdDocs_append, createdDocs_ack, List.append_nil]
      exact handleType_created_ne_nil t ht m₂ f₂ r₁.store.docs r₁.store
    · intro p hp
      rw [createdDocs_append, createdDocs_ack, List.append_nil] at hp
      have hst := handleType_status t m₂ f₂ r₁.store.docs r₁.store p hp
      rw [hdup] at hst
      simpa using hst
    · intro o ho
      rw [List.mem_append] at ho
      rcases ho with ho | ho
      · have hex : ∃ o, Action.publish o ∈
            (handleType t m₂ f₂ r₁.store.docs r₁.store).2 := ⟨o, ho⟩
        rw [handleType_publish_mem t ht m₂ f₂ r₁.store.docs r₁.store] at hex
        rw [hdup] at hex
        exact absurd hex (by decide)
      · simp at ho

/-- Witness for C10: the lookup result is unchanged when the stored
record's responser name, status and payload all differ, the detail
fields being equal. -/
theorem C10_lookup_noninterference_witness :
    dupFound "onlyIP" [(0, singleDoc (some "r") (some "onlyIP")
        (some "1.2.3.4") none none "waiting" "null")]
      (some "1.2.3.4") none none =
    dupFound "onlyIP" [(7, singleDoc (some "other") (some "onlyIP")
        (some "1.2.3.4") none none "duplicated" "x")]
      (some "1.2.3.4") none none :=
  (C10_lookup_noninterference "onlyIP").1 _ _ _ _ _
    (List.Forall₂.cons ⟨rfl, rfl, rfl⟩ List.Forall₂.nil)

end ReviewerBackend
